import Mathlib

/-!
Verification of the geometry engine and graph builder of
`src/utils/tour/generate_tour.py` (Pannellum tour generator).

The Python source works over lists of floats; here vectors and quaternions
are records of real numbers, and the float arithmetic of the source is
modelled exactly over `ℝ` (thresholds such as `1e-10` become the rational
`1 / 10 ^ 10`).  Panorama records (Python dicts) become the `Pano`
structure; the in-place mutation `pano['scene_id'] = sid` performed by the
builder is modelled by returning the updated panorama list alongside the
configuration.  Python's `dict` insertion (insert new key at the end,
overwrite an existing key in place) is modelled by `dictInsert`.
-/

/-- A 3D vector, modelling the Python 3-element list `[x, y, z]`. -/
@[ext] structure Vec3 where
  x : ℝ
  y : ℝ
  z : ℝ

/-- A quaternion `[w, x, y, z]`, modelling the Python 4-element list. -/
@[ext] structure Quat where
  w : ℝ
  x : ℝ
  y : ℝ
  z : ℝ

/-- `quat_conjugate` (lines 18-20): conjugate `[w, -x, -y, -z]`. -/
def quat_conjugate (q : Quat) : Quat :=
  ⟨q.w, -q.x, -q.y, -q.z⟩

/-- `quat_multiply` (lines 23-30): Hamilton product of two quaternions. -/
def quat_multiply (a b : Quat) : Quat :=
  ⟨a.w * b.w - a.x * b.x - a.y * b.y - a.z * b.z,
   a.w * b.x + a.x * b.w + a.y * b.z - a.z * b.y,
   a.w * b.y - a.x * b.z + a.y * b.w + a.z * b.x,
   a.w * b.z + a.x * b.y - a.y * b.x + a.z * b.w⟩

/-- `quat_rotate` (lines 33-39): sandwich product `q * (0,v) * conj q`,
keeping the vector part. -/
def quat_rotate (q : Quat) (v : Vec3) : Vec3 :=
  let v_quat : Quat := ⟨0, v.x, v.y, v.z⟩
  let q_conj := quat_conjugate q
  let result := quat_multiply (quat_multiply q v_quat) q_conj
  ⟨result.x, result.y, result.z⟩

/-- `normalize_vec` (lines 42-47): normalize a 3D vector, returning the
zero vector when the magnitude is below the `1e-10` sentinel threshold. -/
noncomputable def normalize_vec (v : Vec3) : Vec3 :=
  if Real.sqrt (v.x ^ 2 + v.y ^ 2 + v.z ^ 2) < 1 / 10 ^ 10 then ⟨0, 0, 0⟩
  else ⟨v.x / Real.sqrt (v.x ^ 2 + v.y ^ 2 + v.z ^ 2),
        v.y / Real.sqrt (v.x ^ 2 + v.y ^ 2 + v.z ^ 2),
        v.z / Real.sqrt (v.x ^ 2 + v.y ^ 2 + v.z ^ 2)⟩

/-- Model of Python's `math.atan2 y x` over the reals (the IEEE `atan2`
convention, signed zeros aside): angle of the point `(x, y)` in `(-π, π]`. -/
noncomputable def atan2 (y x : ℝ) : ℝ :=
  if 0 < x then Real.arctan (y / x)
  else if x < 0 ∧ 0 ≤ y then Real.arctan (y / x) + Real.pi
  else if x < 0 ∧ y < 0 then Real.arctan (y / x) - Real.pi
  else if x = 0 ∧ 0 < y then Real.pi / 2
  else if x = 0 ∧ y < 0 then -(Real.pi / 2)
  else 0

/-- Model of Python's `math.degrees`: radians to degrees. -/
noncomputable def degrees (r : ℝ) : ℝ :=
  r * 180 / Real.pi

/-- Model of Python's `%` on floats with a positive modulus:
`a - b * ⌊a / b⌋`, which lies in `[0, b)` for `b > 0`. -/
noncomputable def pymod (a b : ℝ) : ℝ :=
  a - b * ⌊a / b⌋

/-- Model of Python's `round(x, 2)`: round to two decimal places.
(Python uses round-half-even on floats; the tie-breaking rule is
irrelevant here since both sides of every claim use the same rounding.) -/
noncomputable def round2 (x : ℝ) : ℝ :=
  (round (x * 100) : ℤ) / 100

/-- A panorama record (Python dict built by `scan_panoramas`, lines
96-101).  `scene_id` is absent (`none`) until the builder's first loop
adds it (line 193). -/
structure Pano where
  name : String
  jpg_path : String
  position : Vec3
  orientation : Quat
  scene_id : Option String := none

/-- The intermediate value `d_local` of `compute_hotspot_yaw`
(lines 118-129): the world-space direction from `pano_a` to `pano_b`,
normalized, then rotated into `pano_a`'s camera-local frame by the
conjugate of its orientation. -/
noncomputable def d_local (pano_a pano_b : Pano) : Vec3 :=
  quat_rotate (quat_conjugate pano_a.orientation)
    (normalize_vec ⟨pano_b.position.x - pano_a.position.x,
                    pano_b.position.y - pano_a.position.y,
                    pano_b.position.z - pano_a.position.z⟩)

/-- `compute_hotspot_yaw` (lines 110-141): yaw in degrees from `pano_a`
toward `pano_b`, plus the global offset, wrapped by
`((yaw + 180) % 360) - 180`. -/
noncomputable def compute_hotspot_yaw (pano_a pano_b : Pano)
    (yaw_offset : ℝ) : ℝ :=
  pymod (degrees (atan2 (d_local pano_a pano_b).x (d_local pano_a pano_b).y)
         + yaw_offset + 180) 360 - 180

/-- `compute_distance` (lines 144-147): Euclidean distance between two
panorama positions. -/
noncomputable def compute_distance (pano_a pano_b : Pano) : ℝ :=
  Real.sqrt ((pano_b.position.x - pano_a.position.x) ^ 2
           + (pano_b.position.y - pano_a.position.y) ^ 2
           + (pano_b.position.z - pano_a.position.z) ^ 2)

/-- `compute_north_offset` (lines 150-161): heading of the camera's
forward axis `[0,1,0]` rotated to world space, measured from world +Y. -/
noncomputable def compute_north_offset (pano : Pano) : ℝ :=
  degrees (atan2 (quat_rotate pano.orientation ⟨0, 1, 0⟩).x
                 (quat_rotate pano.orientation ⟨0, 1, 0⟩).y)

/-- Helper for `make_scene_id` (line 170): Python's
`re.sub(r'[^a-zA-Z0-9]+', '_', name)` replaces each maximal run of
non-alphanumeric characters by a single underscore.  The boolean state
records whether we are inside such a run. -/
def collapseRun : Bool → List Char → List Char
  | _, [] => []
  | inRun, c :: rest =>
    if c.isAlphanum then c :: collapseRun false rest
    else if inRun then collapseRun true rest
    else '_' :: collapseRun true rest

/-- Python's `str.strip(c)` for a single character: drop it from both
ends. -/
def stripChar (c : Char) (l : List Char) : List Char :=
  ((l.dropWhile (fun d => d == c)).reverse.dropWhile (fun d => d == c)).reverse

/-- `make_scene_id` (lines 168-170): collapse non-alphanumeric runs to
underscores, strip underscores from both ends, lowercase. -/
def make_scene_id (name : String) : String :=
  String.mk ((stripChar '_' (collapseRun false name.toList)).map Char.toLower)

/-- Helper for `make_title` (lines 173-177): the regex
`^Job\s+\d+-?\s*` — literal `Job`, one or more whitespace, one or more
digits, an optional dash, then any whitespace.  Returns the remainder
when the pattern matches at the start, `none` otherwise. -/
def stripJobTag : List Char → Option (List Char)
  | 'J' :: 'o' :: 'b' :: rest =>
    if (rest.takeWhile Char.isWhitespace).isEmpty then none
    else
      let r1 := rest.dropWhile Char.isWhitespace
      if (r1.takeWhile Char.isDigit).isEmpty then none
      else
        let r2 := r1.dropWhile Char.isDigit
        let r3 := match r2 with
          | '-' :: t => t
          | t => t
        some (r3.dropWhile Char.isWhitespace)
  | _ => none

/-- Python's `str.strip()`: drop whitespace from both ends. -/
def pyStrip (l : List Char) : List Char :=
  ((l.dropWhile Char.isWhitespace).reverse.dropWhile Char.isWhitespace).reverse

/-- `make_title` (lines 173-177): strip a leading `Job <number>-` tag and
surrounding whitespace; fall back to the raw name when that leaves the
empty string. -/
def make_title (name : String) : String :=
  let stripped := (stripJobTag name.toList).getD name.toList
  let t := pyStrip stripped
  if t.isEmpty then name else String.mk t

/-- One hotspot dict (lines 213-223).  The `text` f-string
`f'{title} ({dist:.1f}m)'` is modelled by its two payloads `textTitle`
and `textDist` (decimal formatting of a float is presentation, carrying
the same data). -/
structure Hotspot where
  pitch : ℝ
  yaw : ℝ
  type : String
  textTitle : String
  textDist : ℝ
  sceneId : String
  targetYaw : String
  targetPitch : String
  cssClass : String
  scale : Bool

/-- One scene entry (lines 225-233).  `hotSpotDebug` models the key that
is added only in debug mode (a missing key and a `false` flag carry the
same information). -/
structure SceneEntry where
  title : String
  panorama : String
  northOffset : ℝ
  hotSpots : List Hotspot
  hotSpotDebug : Bool

/-- The `default` block of the tour config (lines 236-241). -/
structure TourDefault where
  firstScene : Option String
  sceneFadeDuration : ℕ
  autoLoad : Bool
  compass : Bool

/-- The tour configuration (lines 235-243).  The Python `scenes` dict is
modelled as an association list in insertion order (Python 3 dicts
preserve insertion order). -/
structure TourConfig where
  default : TourDefault
  scenes : List (String × SceneEntry)

/-- The first loop of `generate_tour_config` (lines 190-193): it mutates
each panorama record in place, adding the `scene_id` key. -/
def assign_scene_id (p : Pano) : Pano :=
  { p with scene_id := some (make_scene_id p.name) }

/-- The dict access `pano['scene_id']` (always present once the first
loop has run; `""` stands for the impossible missing-key case). -/
def sid (p : Pano) : String :=
  p.scene_id.getD ""

/-- One hotspot as built in the inner loop (lines 210-223). -/
noncomputable def mkHotspot (pano : Pano) (yaw_offset : ℝ)
    (other : Pano) : Hotspot :=
  { pitch := 0
    yaw := round2 (compute_hotspot_yaw pano other yaw_offset)
    type := "scene"
    textTitle := make_title other.name
    textDist := compute_distance pano other
    sceneId := sid other
    targetYaw := "sameAzimuth"
    targetPitch := "same"
    cssClass := "streetview-arrow"
    scale := true }

/-- The inner loop of `generate_tour_config` (lines 206-223): walk the
full panorama list with a counter `j`, skipping index `i` (the source
scene itself). -/
noncomputable def buildHotspots (pano : Pano) (yaw_offset : ℝ) (i : ℕ) :
    ℕ → List Pano → List Hotspot
  | _, [] => []
  | j, other :: rest =>
    if i = j then buildHotspots pano yaw_offset i (j + 1) rest
    else mkHotspot pano yaw_offset other ::
         buildHotspots pano yaw_offset i (j + 1) rest

/-- One scene entry as built in the outer loop (lines 198-233).  The
`panorama` field is the relative path `os.path.relpath(abspath(jpg),
abspath(output_dir))`; path resolution is a filesystem operation outside
the core (spec section 1), so the stored `jpg_path` is carried through
unchanged. -/
noncomputable def mkSceneEntry (all : List Pano) (yaw_offset : ℝ)
    (debug : Bool) (i : ℕ) (pano : Pano) : SceneEntry :=
  { title := make_title pano.name
    panorama := pano.jpg_path
    northOffset := round2 (compute_north_offset pano)
    hotSpots := buildHotspots pano yaw_offset i 0 all
    hotSpotDebug := debug }

/-- Python dict assignment `scenes[sid] = entry`: overwrite in place when
the key exists, append otherwise. -/
def dictInsert (scenes : List (String × SceneEntry)) (k : String)
    (v : SceneEntry) : List (String × SceneEntry) :=
  if scenes.any (fun e => e.1 == k) then
    scenes.map (fun e => if e.1 == k then (k, v) else e)
  else scenes ++ [(k, v)]

/-- The outer loop of `generate_tour_config` (lines 197-233), with the
enumeration counter `i` and the `scenes` dict threaded through. -/
noncomputable def buildScenes (all : List Pano) (yaw_offset : ℝ)
    (debug : Bool) :
    List (String × SceneEntry) → ℕ → List Pano →
    List (String × SceneEntry)
  | scenes, _, [] => scenes
  | scenes, i, pano :: rest =>
    buildScenes all yaw_offset debug
      (dictInsert scenes (sid pano) (mkSceneEntry all yaw_offset debug i pano))
      (i + 1) rest

/-- `generate_tour_config` (lines 184-245).  The second component of the
result is the panorama list after the in-place `scene_id` mutation of the
first loop, making the builder's effect on its input explicit.
`output_dir` and `data_dir` are carried for signature fidelity; they feed
only the out-of-scope path resolution (and `data_dir` is unused in the
source as well). -/
noncomputable def generate_tour_config (panoramas : List Pano)
    (output_dir data_dir : String) (yaw_offset : ℝ) (debug : Bool) :
    TourConfig × List Pano :=
  let panos := panoramas.map assign_scene_id
  let first_scene := (panoramas.map (fun p => make_scene_id p.name)).head?
  ({ default := { firstScene := first_scene, sceneFadeDuration := 1000,
                  autoLoad := true, compass := true },
     scenes := buildScenes panos yaw_offset debug [] 0 panos },
   panos)

/-- The empty-input guard of `main` (lines 421-424): `main` exits with an
error before the builder runs when scanning found no panoramas.  Modelled
as the CLI pipeline from the scanned list onward (lines 421-433). -/
noncomputable def main_pipeline (panoramas : List Pano)
    (output_dir data_dir : String) (yaw_offset : ℝ) (debug : Bool) :
    Except String TourConfig :=
  if panoramas.isEmpty then Except.error "No panorama pairs found"
  else Except.ok
    (generate_tour_config panoramas output_dir data_dir yaw_offset debug).1

/-! ## Arithmetic facts about the wrap, the angle helpers and rotation -/

lemma pymod_eq_fract (a b : ℝ) (hb : b ≠ 0) : pymod a b = b * Int.fract (a / b) := by
  unfold pymod Int.fract
  field_simp

lemma pymod_nonneg (a b : ℝ) (hb : 0 < b) : 0 ≤ pymod a b := by
  rw [pymod_eq_fract a b hb.ne']
  exact mul_nonneg hb.le (Int.fract_nonneg _)

lemma pymod_lt (a b : ℝ) (hb : 0 < b) : pymod a b < b := by
  rw [pymod_eq_fract a b hb.ne']
  calc b * Int.fract (a / b) < b * 1 :=
        mul_lt_mul_of_pos_left (Int.fract_lt_one _) hb
    _ = b := mul_one b

lemma pymod_eq_self (a b : ℝ) (h0 : 0 ≤ a) (hab : a < b) : pymod a b = a := by
  have hb : 0 < b := lt_of_le_of_lt h0 hab
  unfold pymod
  rw [Int.floor_eq_zero_iff.mpr ⟨div_nonneg h0 hb.le, (div_lt_one hb).mpr hab⟩]
  simp

lemma pymod_self (b : ℝ) (hb : b ≠ 0) : pymod b b = 0 := by
  unfold pymod
  rw [div_self hb]
  simp

lemma degrees_pi : degrees Real.pi = 180 := by
  unfold degrees
  field_simp

lemma degrees_pi_div_two : degrees (Real.pi / 2) = 90 := by
  unfold degrees
  field_simp
  ring

lemma degrees_neg_pi_div_two : degrees (-(Real.pi / 2)) = -90 := by
  unfold degrees
  field_simp
  ring

lemma degrees_zero : degrees 0 = 0 := by
  unfold degrees
  simp

lemma atan2_one_zero : atan2 1 0 = Real.pi / 2 := by
  norm_num [atan2]

lemma atan2_neg_one_zero : atan2 (-1) 0 = -(Real.pi / 2) := by
  norm_num [atan2]

lemma atan2_zero_neg_one : atan2 0 (-1) = Real.pi := by
  norm_num [atan2, Real.arctan_zero]

lemma atan2_zero_zero : atan2 0 0 = 0 := by
  norm_num [atan2]

lemma sqrt_hundred : Real.sqrt 100 = 10 := by
  rw [show (100 : ℝ) = 10 ^ 2 by norm_num]
  exact Real.sqrt_sq (by norm_num)

lemma normalize_vec_zero : normalize_vec ⟨0, 0, 0⟩ = ⟨0, 0, 0⟩ := by
  unfold normalize_vec
  norm_num

lemma quat_rotate_zero (q : Quat) : quat_rotate q ⟨0, 0, 0⟩ = ⟨0, 0, 0⟩ := by
  obtain ⟨a, b, c, d⟩ := q
  simp only [quat_rotate, quat_conjugate, quat_multiply]
  congr 1 <;> ring

lemma d_local_of_eq_pos (pa pb : Pano) (h : pa.position = pb.position) :
    d_local pa pb = ⟨0, 0, 0⟩ := by
  unfold d_local
  rw [h]
  simp only [sub_self]
  rw [normalize_vec_zero, quat_rotate_zero]

/-! ## Concrete scenes used by counterexamples and witnesses -/

/-- Scene A of the spec's concrete scenario: origin, identity orientation. -/
def panoA : Pano :=
  { name := "A", jpg_path := "A.jpg", position := ⟨0, 0, 0⟩,
    orientation := ⟨1, 0, 0, 0⟩ }

/-- Scene B of the spec's concrete scenario: at `(10, 0, 0)`. -/
def panoB : Pano :=
  { name := "B", jpg_path := "B.jpg", position := ⟨10, 0, 0⟩,
    orientation := ⟨1, 0, 0, 0⟩ }

/-- A scene placed on the negative Y axis as seen from the origin: the
bearing toward it is exactly 180 degrees before wrapping. -/
def panoSouth : Pano :=
  { name := "S", jpg_path := "S.jpg", position := ⟨0, -1, 0⟩,
    orientation := ⟨1, 0, 0, 0⟩ }

/-- A scene distinct from `panoA` but placed at the same position. -/
def panoCo : Pano :=
  { name := "C", jpg_path := "C.jpg", position := ⟨0, 0, 0⟩,
    orientation := ⟨0, 0, 1, 0⟩ }

lemma d_local_A_South : d_local panoA panoSouth = ⟨0, -1, 0⟩ := by
  simp only [d_local, panoA, panoSouth, normalize_vec, quat_conjugate,
    quat_rotate, quat_multiply]
  norm_num [Real.sqrt_one]

lemma yaw_A_South : compute_hotspot_yaw panoA panoSouth 0 = -180 := by
  unfold compute_hotspot_yaw
  rw [d_local_A_South]
  simp only []
  rw [atan2_zero_neg_one, degrees_pi]
  rw [show (180 : ℝ) + 0 + 180 = 360 by norm_num,
      pymod_self 360 (by norm_num)]
  norm_num

lemma d_local_A_B : d_local panoA panoB = ⟨1, 0, 0⟩ := by
  simp only [d_local, panoA, panoB, normalize_vec, quat_conjugate,
    quat_rotate, quat_multiply]
  norm_num [sqrt_hundred]

lemma d_local_B_A : d_local panoB panoA = ⟨-1, 0, 0⟩ := by
  simp only [d_local, panoA, panoB, normalize_vec, quat_conjugate,
    quat_rotate, quat_multiply]
  norm_num [sqrt_hundred]

lemma dist_A_B : compute_distance panoA panoB = 10 := by
  simp only [compute_distance, panoA, panoB]
  norm_num [sqrt_hundred]

lemma yaw_A_B : compute_hotspot_yaw panoA panoB 0 = 90 := by
  unfold compute_hotspot_yaw
  rw [d_local_A_B]
  simp only []
  rw [atan2_one_zero, degrees_pi_div_two]
  rw [show (90 : ℝ) + 0 + 180 = 270 by norm_num,
      pymod_eq_self 270 360 (by norm_num) (by norm_num)]
  norm_num

lemma yaw_B_A : compute_hotspot_yaw panoB panoA 0 = -90 := by
  unfold compute_hotspot_yaw
  rw [d_local_B_A]
  simp only []
  rw [atan2_neg_one_zero, degrees_neg_pi_div_two]
  rw [show (-90 : ℝ) + 0 + 180 = 90 by norm_num,
      pymod_eq_self 90 360 (by norm_num) (by norm_num)]
  norm_num

/-! ## Structure of the builder's loops -/

lemma dictInsert_fresh (scenes : List (String × SceneEntry)) (k : String)
    (v : SceneEntry) (h : ∀ e ∈ scenes, e.1 ≠ k) :
    dictInsert scenes k v = scenes ++ [(k, v)] := by
  have hc : scenes.any (fun e => e.1 == k) = false := by
    rw [List.any_eq_false]
    intro e he
    simpa using h e he
  unfold dictInsert
  rw [hc]
  simp

lemma dictInsert_mem (scenes : List (String × SceneEntry)) (k : String)
    (v : SceneEntry) (e : String × SceneEntry)
    (he : e ∈ dictInsert scenes k v) : e ∈ scenes ∨ e = (k, v) := by
  unfold dictInsert at he
  by_cases hc : scenes.any (fun x => x.1 == k) = true
  · rw [if_pos hc] at he
    rcases List.mem_map.mp he with ⟨a, ha, rfl⟩
    by_cases hk : a.1 == k
    · right; rw [if_pos hk]
    · left; rw [if_neg hk]; exact ha
  · rw [if_neg hc] at he
    rcases List.mem_append.mp he with h1 | h1
    · exact Or.inl h1
    · right; simpa using h1

lemma buildHotspots_gt (pano : Pano) (yaw_offset : ℝ) :
    ∀ (l : List Pano) (i j : ℕ), i < j →
      buildHotspots pano yaw_offset i j l = l.map (mkHotspot pano yaw_offset)
  | [], _, _, _ => rfl
  | p :: rest, i, j, hij => by
    unfold buildHotspots
    rw [if_neg (Nat.ne_of_lt hij)]
    rw [buildHotspots_gt pano yaw_offset rest i (j + 1) (Nat.lt_succ_of_lt hij)]
    rfl

lemma buildHotspots_le (pano : Pano) (yaw_offset : ℝ) :
    ∀ (l : List Pano) (j i : ℕ), j ≤ i →
      buildHotspots pano yaw_offset i j l =
        (l.eraseIdx (i - j)).map (mkHotspot pano yaw_offset)
  | [], _, _, _ => by simp [buildHotspots, List.eraseIdx]
  | p :: rest, j, i, hji => by
    unfold buildHotspots
    by_cases hij : i = j
    · subst hij
      rw [if_pos rfl,
          buildHotspots_gt pano yaw_offset rest i (i + 1) (Nat.lt_succ_self i)]
      simp [List.eraseIdx]
    · have hlt : j < i := lt_of_le_of_ne hji (Ne.symm hij)
      rw [if_neg hij]
      rw [buildHotspots_le pano yaw_offset rest (j + 1) i hlt]
      have : i - j = (i - (j + 1)) + 1 := by omega
      rw [this]
      rfl

lemma buildHotspots_mem (pano : Pano) (yaw_offset : ℝ) :
    ∀ (l : List Pano) (i j : ℕ) (hs : Hotspot),
      hs ∈ buildHotspots pano yaw_offset i j l →
      ∃ b ∈ l, hs = mkHotspot pano yaw_offset b
  | [], _, _, _, h => by simp [buildHotspots] at h
  | p :: rest, i, j, hs, h => by
    unfold buildHotspots at h
    by_cases hij : i = j
    · rw [if_pos hij] at h
      rcases buildHotspots_mem pano yaw_offset rest i (j + 1) hs h with ⟨b, hb, rfl⟩
      exact ⟨b, List.mem_cons_of_mem p hb, rfl⟩
    · rw [if_neg hij] at h
      rcases List.mem_cons.mp h with h1 | h1
      · exact ⟨p, List.mem_cons_self p rest, h1⟩
      · rcases buildHotspots_mem pano yaw_offset rest i (j + 1) hs h1 with ⟨b, hb, rfl⟩
        exact ⟨b, List.mem_cons_of_mem p hb, rfl⟩

/-- Closed form of the outer loop when all scene ids are distinct: one
entry per panorama, in input order, with the enumeration index threaded
through. -/
noncomputable def entriesFrom (all : List Pano) (yaw_offset : ℝ)
    (debug : Bool) : ℕ → List Pano → List (String × SceneEntry)
  | _, [] => []
  | i, p :: rest =>
    (sid p, mkSceneEntry all yaw_offset debug i p) ::
      entriesFrom all yaw_offset debug (i + 1) rest

lemma entriesFrom_length (all : List Pano) (yaw_offset : ℝ) (debug : Bool) :
    ∀ (l : List Pano) (i : ℕ),
      (entriesFrom all yaw_offset debug i l).length = l.length
  | [], _ => rfl
  | _ :: rest, i => by
    unfold entriesFrom
    simp [entriesFrom_length all yaw_offset debug rest (i + 1)]

lemma buildScenes_append (all : List Pano) (yaw_offset : ℝ) (debug : Bool) :
    ∀ (l : List Pano) (acc : List (String × SceneEntry)) (i : ℕ),
      (∀ p ∈ l, ∀ e ∈ acc, e.1 ≠ sid p) → (l.map sid).Nodup →
      buildScenes all yaw_offset debug acc i l =
        acc ++ entriesFrom all yaw_offset debug i l
  | [], acc, i, _, _ => by simp [buildScenes, entriesFrom]
  | p :: rest, acc, i, hfresh, hnd => by
    unfold buildScenes entriesFrom
    rw [dictInsert_fresh acc (sid p) _
      (fun e he => hfresh p (List.mem_cons_self p rest) e he)]
    have hnd2 : (rest.map sid).Nodup := (List.nodup_cons.mp hnd).2
    have hp : sid p ∉ rest.map sid := (List.nodup_cons.mp hnd).1
    rw [buildScenes_append all yaw_offset debug rest
      (acc ++ [(sid p, mkSceneEntry all yaw_offset debug i p)]) (i + 1)
      ?fresh hnd2]
    · simp
    case fresh =>
      intro q hq e he
      rcases List.mem_append.mp he with h1 | h1
      · exact hfresh q (List.mem_cons_of_mem p hq) e h1
      · have he2 : e = (sid p, mkSceneEntry all yaw_offset debug i p) := by
          simpa using h1
        rw [he2]
        intro hcontra
        simp only [] at hcontra
        exact hp (hcontra ▸ List.mem_map_of_mem sid hq)

lemma entriesFrom_getElem? (all : List Pano) (yaw_offset : ℝ) (debug : Bool) :
    ∀ (l : List Pano) (i j : ℕ) (hj : j < l.length),
      (entriesFrom all yaw_offset debug i l)[j]? =
        some (sid (l.get ⟨j, hj⟩),
              mkSceneEntry all yaw_offset debug (i + j) (l.get ⟨j, hj⟩))
  | [], _, j, hj => by simp at hj
  | p :: rest, i, 0, _ => by simp [entriesFrom]
  | p :: rest, i, j + 1, hj => by
    unfold entriesFrom
    have hj2 : j < rest.length := by simpa using hj
    simp only [List.getElem?_cons_succ]
    rw [entriesFrom_getElem? all yaw_offset debug rest (i + 1) j hj2]
    have : i + 1 + j = i + (j + 1) := by omega
    rw [this]
    rfl

lemma map_eraseIdx {α β : Type} (f : α → β) :
    ∀ (l : List α) (j : ℕ), (l.eraseIdx j).map f = (l.map f).eraseIdx j
  | [], _ => rfl
  | _ :: _, 0 => rfl
  | a :: rest, j + 1 => by
    simp only [List.eraseIdx, List.map]
    rw [map_eraseIdx f rest j]

lemma nodup_get_not_mem_eraseIdx {α : Type} :
    ∀ (l : List α) (j : ℕ) (hj : j < l.length), l.Nodup →
      l.get ⟨j, hj⟩ ∉ l.eraseIdx j
  | [], j, hj, _ => by simp at hj
  | a :: rest, 0, _, hnd => by
    simpa using (List.nodup_cons.mp hnd).1
  | a :: rest, j + 1, hj, hnd => by
    have hj2 : j < rest.length := by simpa using hj
    simp only [List.eraseIdx, List.get, List.mem_cons]
    rintro (h1 | h1)
    · have hmem : rest.get ⟨j, hj2⟩ ∈ rest := List.get_mem rest j hj2
      rw [h1] at hmem
      exact (List.nodup_cons.mp hnd).1 hmem
    · exact nodup_get_not_mem_eraseIdx rest j hj2 (List.nodup_cons.mp hnd).2 h1

lemma buildScenes_forall (all : List Pano) (yaw_offset : ℝ) (debug : Bool)
    (P : String × SceneEntry → Prop) :
    ∀ (l : List Pano) (acc : List (String × SceneEntry)) (i : ℕ),
      (∀ e ∈ acc, P e) →
      (∀ (k : ℕ) (p : Pano), p ∈ l →
        P (sid p, mkSceneEntry all yaw_offset debug k p)) →
      ∀ e ∈ buildScenes all yaw_offset debug acc i l, P e
  | [], _, _, hacc, _, e, he => hacc e he
  | p :: rest, acc, i, hacc, hmk, e, he => by
    refine buildScenes_forall all yaw_offset debug P rest _ (i + 1) ?_
      (fun k q hq => hmk k q (List.mem_cons_of_mem p hq)) e he
    intro e' he'
    rcases dictInsert_mem acc (sid p) _ e' he' with h1 | h1
    · exact hacc e' h1
    · rw [h1]
      exact hmk i p (List.mem_cons_self p rest)

lemma map_sid_assign (panos : List Pano) :
    (panos.map assign_scene_id).map sid =
      panos.map (fun p => make_scene_id p.name) := by
  rw [List.map_map]
  rfl

lemma scenes_eq (panos : List Pano) (output_dir data_dir : String)
    (yaw_offset : ℝ) (debug : Bool)
    (hnd : (panos.map (fun p => make_scene_id p.name)).Nodup) :
    (generate_tour_config panos output_dir data_dir yaw_offset debug).1.scenes =
      entriesFrom (panos.map assign_scene_id) yaw_offset debug 0
        (panos.map assign_scene_id) := by
  have h0 : (generate_tour_config panos output_dir data_dir yaw_offset debug).1.scenes =
      buildScenes (panos.map assign_scene_id) yaw_offset debug [] 0
        (panos.map assign_scene_id) := rfl
  rw [h0, buildScenes_append _ _ _ _ [] 0 (by simp)
    (by rw [map_sid_assign]; exact hnd)]
  simp

/-! ## Claims -/

/-- C1, counterexample: for scene `panoSouth` on the negative Y axis the
computed yaw is exactly `-180`, so the claimed interval `(-180, 180]` is
wrong — `-180` is attained (the wrap `((yaw + 180) mod 360) - 180` maps
the raw bearing `180` to `-180`). -/
theorem compute_hotspot_yaw_attains_neg180 :
    compute_hotspot_yaw panoA panoSouth 0 = -180 ∧
    ¬ (-180 < compute_hotspot_yaw panoA panoSouth 0 ∧
       compute_hotspot_yaw panoA panoSouth 0 ≤ 180) := by
  refine ⟨yaw_A_South, ?_⟩
  rw [yaw_A_South]
  intro hcon
  exact lt_irrefl _ hcon.1

/-- C1, amended: for every pair of scenes and every yaw offset,
`compute_hotspot_yaw` returns a value in the half-open interval
`[-180, 180)`: at least `-180` and strictly less than `180`. -/
theorem compute_hotspot_yaw_range (pano_a pano_b : Pano) (yaw_offset : ℝ) :
    -180 ≤ compute_hotspot_yaw pano_a pano_b yaw_offset ∧
    compute_hotspot_yaw pano_a pano_b yaw_offset < 180 := by
  unfold compute_hotspot_yaw
  constructor
  · have h := pymod_nonneg (degrees (atan2 (d_local pano_a pano_b).x
      (d_local pano_a pano_b).y) + yaw_offset + 180) 360 (by norm_num)
    linarith
  · have h := pymod_lt (degrees (atan2 (d_local pano_a pano_b).x
      (d_local pano_a pano_b).y) + yaw_offset + 180) 360 (by norm_num)
    linarith

/-- C2, counterexample: the graph builder applied to the empty scene
sequence does not fail — it returns a configuration with zero scene
entries and no first scene. -/
theorem generate_tour_config_empty_returns_zero_scenes :
    (generate_tour_config [] "out" "data" 0 false).1.scenes = [] ∧
    (generate_tour_config [] "out" "data" 0 false).1.default.firstScene = none :=
  ⟨rfl, rfl⟩

/-- C2, amended: `generate_tour_config` applied to an empty scene
sequence returns a configuration with zero scene entries and
`firstScene = none` (Python `None`); the explicit fatal empty-input error
is raised only by the CLI `main`, which exits with "No panorama pairs
found" before the builder is ever called. -/
theorem empty_input_result (output_dir data_dir : String) (yaw_offset : ℝ)
    (debug : Bool) :
    (generate_tour_config [] output_dir data_dir yaw_offset debug).1.scenes = [] ∧
    (generate_tour_config [] output_dir data_dir yaw_offset debug).1.default.firstScene
      = none ∧
    main_pipeline [] output_dir data_dir yaw_offset debug =
      Except.error "No panorama pairs found" :=
  ⟨rfl, rfl, rfl⟩

/-- C3, counterexample: the builder does mutate its input scene records —
after building, the single input record is no longer equal to the record
supplied (its `scene_id` field has been added). -/
theorem generate_tour_config_mutates_input :
    (generate_tour_config [panoA] "out" "data" 0 false).2 ≠ [panoA] := by
  intro h
  have h1 : [assign_scene_id panoA] = [panoA] := h
  injection h1 with h2 _
  have h3 := congrArg Pano.scene_id h2
  simp [assign_scene_id, panoA] at h3

/-- C3, amended: after build, every input scene record keeps its `name`,
`jpg_path`, `position` and `orientation` unchanged, and has exactly one
new field: `scene_id`, set to the slug of its name by the first loop.
(`north_offset` is not stored on the record at all — it lives only in the
output entry.) -/
theorem build_effect_on_scene_records (panos : List Pano)
    (output_dir data_dir : String) (yaw_offset : ℝ) (debug : Bool) :
    List.Forall₂ (fun p q =>
        q.name = p.name ∧ q.jpg_path = p.jpg_path ∧ q.position = p.position ∧
        q.orientation = p.orientation ∧
        q.scene_id = some (make_scene_id p.name))
      panos
      (generate_tour_config panos output_dir data_dir yaw_offset debug).2 := by
  have h0 : (generate_tour_config panos output_dir data_dir yaw_offset debug).2 =
      panos.map assign_scene_id := rfl
  rw [h0, List.forall₂_map_right_iff, List.forall₂_same]
  intro p _
  simp [assign_scene_id]

/-- C4: in the spec's concrete scenario (scene A at the origin with
identity orientation, scene B at `(10,0,0)`), the distance is exactly
`10`, the yaw from A to B is exactly `90` degrees, and the yaw from B to
A is exactly `-90` degrees. -/
theorem concrete_scenario_values :
    compute_distance panoA panoB = 10 ∧
    compute_hotspot_yaw panoA panoB 0 = 90 ∧
    compute_hotspot_yaw panoB panoA 0 = -90 :=
  ⟨dist_A_B, yaw_A_B, yaw_B_A⟩

/-- C5: for a non-empty scene sequence with pairwise-distinct scene ids,
the built graph has exactly one entry per scene, each entry has exactly
`n - 1` edges, and no edge points at its own source scene. -/
theorem complete_graph_size (panos : List Pano) (output_dir data_dir : String)
    (yaw_offset : ℝ) (debug : Bool) (hne : panos ≠ [])
    (hnd : (panos.map (fun p => make_scene_id p.name)).Nodup) :
    ((generate_tour_config panos output_dir data_dir yaw_offset debug).1.scenes).length
      = panos.length ∧
    ∀ e ∈ (generate_tour_config panos output_dir data_dir yaw_offset debug).1.scenes,
      e.2.hotSpots.length = panos.length - 1 ∧
      ∀ hs ∈ e.2.hotSpots, hs.sceneId ≠ e.1 := by
  have hnd2 : ((panos.map assign_scene_id).map sid).Nodup := by
    rw [map_sid_assign]; exact hnd
  rw [scenes_eq panos output_dir data_dir yaw_offset debug hnd]
  constructor
  · rw [entriesFrom_length]
    simp
  · intro e he
    rcases List.mem_iff_getElem?.mp he with ⟨n, hn⟩
    have hlen : n < (panos.map assign_scene_id).length := by
      by_contra hge
      rw [List.getElem?_eq_none] at hn
      · exact Option.noConfusion hn
      · rw [entriesFrom_length]; omega
    rw [entriesFrom_getElem? _ _ _ _ 0 n hlen] at hn
    have he2 := Option.some.inj hn
    subst he2
    have hhs : (mkSceneEntry (panos.map assign_scene_id) yaw_offset debug (0 + n)
        ((panos.map assign_scene_id).get ⟨n, hlen⟩)).hotSpots =
        ((panos.map assign_scene_id).eraseIdx n).map
          (mkHotspot ((panos.map assign_scene_id).get ⟨n, hlen⟩) yaw_offset) := by
      show buildHotspots _ yaw_offset (0 + n) 0 _ = _
      rw [buildHotspots_le _ _ _ 0 (0 + n) (Nat.zero_le _), Nat.zero_add,
        Nat.sub_zero]
    constructor
    · simp only [hhs, List.length_map]
      have h3 := List.length_eraseIdx_add_one hlen
      simp only [List.length_map] at h3
      omega
    · intro hs hhs2
      simp only [hhs] at hhs2
      rcases List.mem_map.mp hhs2 with ⟨b, hb, rfl⟩
      show sid b ≠ sid ((panos.map assign_scene_id).get ⟨n, hlen⟩)
      intro hcontra
      have hmem : sid ((panos.map assign_scene_id).get ⟨n, hlen⟩) ∈
          ((panos.map assign_scene_id).eraseIdx n).map sid := by
        rw [← hcontra]
        exact List.mem_map_of_mem sid hb
      rw [map_eraseIdx] at hmem
      have hlen2 : n < ((panos.map assign_scene_id).map sid).length := by
        simpa using hlen
      have hget : ((panos.map assign_scene_id).map sid).get ⟨n, hlen2⟩ =
          sid ((panos.map assign_scene_id).get ⟨n, hlen⟩) := by
        simp
      exact nodup_get_not_mem_eraseIdx _ n hlen2 hnd2 (hget ▸ hmem)

/-- C5, witness at two concrete scenes. -/
theorem complete_graph_size_witness :
    (([panoA, panoB] : List Pano) ≠ [] ∧
      (([panoA, panoB] : List Pano).map (fun p => make_scene_id p.name)).Nodup) ∧
    (((generate_tour_config [panoA, panoB] "out" "data" 0 false).1.scenes).length
        = ([panoA, panoB] : List Pano).length ∧
      ∀ e ∈ (generate_tour_config [panoA, panoB] "out" "data" 0 false).1.scenes,
        e.2.hotSpots.length = ([panoA, panoB] : List Pano).length - 1 ∧
        ∀ hs ∈ e.2.hotSpots, hs.sceneId ≠ e.1) :=
  ⟨⟨by simp, by decide⟩,
   complete_graph_size [panoA, panoB] "out" "data" 0 false (by simp) (by decide)⟩

/-- C6: for distinct scene ids, the j-th scene entry's edge list targets
exactly the other scenes in input order — the scene ids of its hotspots
are the input sequence's scene ids with the j-th one removed, in the same
relative order (no sorting by angle or distance). -/
theorem edge_order_follows_input (panos : List Pano)
    (output_dir data_dir : String) (yaw_offset : ℝ) (debug : Bool)
    (hnd : (panos.map (fun p => make_scene_id p.name)).Nodup)
    (j : ℕ) (hj : j < panos.length) :
    ∃ e, ((generate_tour_config panos output_dir data_dir yaw_offset debug).1.scenes)[j]?
        = some e ∧
      e.2.hotSpots.map (fun hs => hs.sceneId) =
        (panos.eraseIdx j).map (fun p => make_scene_id p.name) := by
  have hj2 : j < (panos.map assign_scene_id).length := by simpa using hj
  rw [scenes_eq panos output_dir data_dir yaw_offset debug hnd,
      entriesFrom_getElem? _ _ _ _ 0 j hj2]
  refine ⟨_, rfl, ?_⟩
  have hhs : (mkSceneEntry (panos.map assign_scene_id) yaw_offset debug (0 + j)
      ((panos.map assign_scene_id).get ⟨j, hj2⟩)).hotSpots =
      ((panos.map assign_scene_id).eraseIdx j).map
        (mkHotspot ((panos.map assign_scene_id).get ⟨j, hj2⟩) yaw_offset) := by
    show buildHotspots _ yaw_offset (0 + j) 0 _ = _
    rw [buildHotspots_le _ _ _ 0 (0 + j) (Nat.zero_le _), Nat.zero_add,
      Nat.sub_zero]
  rw [hhs, List.map_map, ← map_eraseIdx assign_scene_id panos j, List.map_map]
  rfl

/-- C6, witness at two concrete scenes and index 0. -/
theorem edge_order_follows_input_witness :
    ((([panoA, panoB] : List Pano).map (fun p => make_scene_id p.name)).Nodup ∧
      0 < ([panoA, panoB] : List Pano).length) ∧
    ∃ e, ((generate_tour_config [panoA, panoB] "out" "data" 0 false).1.scenes)[0]?
        = some e ∧
      e.2.hotSpots.map (fun hs => hs.sceneId) =
        (([panoA, panoB] : List Pano).eraseIdx 0).map
          (fun p => make_scene_id p.name) :=
  ⟨⟨by decide, by simp⟩,
   edge_order_follows_input [panoA, panoB] "out" "data" 0 false (by decide)
     0 (by simp)⟩

/-- C7: for a unit quaternion `q` (sum of squared components equal to 1)
and any vector `v`, rotating by `q` and then by its conjugate gives back
`v` exactly — over the reals the round-trip law holds with no error. -/
theorem rotate_conjugate_rotate_roundtrip (q : Quat) (v : Vec3)
    (h : q.w ^ 2 + q.x ^ 2 + q.y ^ 2 + q.z ^ 2 = 1) :
    quat_rotate (quat_conjugate q) (quat_rotate q v) = v := by
  obtain ⟨a, b, c, d⟩ := q
  obtain ⟨vx, vy, vz⟩ := v
  simp only [] at h
  simp only [quat_rotate, quat_conjugate, quat_multiply]
  congr 1
  · linear_combination (vx * ((a ^ 2 + b ^ 2 + c ^ 2 + d ^ 2) + 1)) * h
  · linear_combination (vy * ((a ^ 2 + b ^ 2 + c ^ 2 + d ^ 2) + 1)) * h
  · linear_combination (vz * ((a ^ 2 + b ^ 2 + c ^ 2 + d ^ 2) + 1)) * h

/-- C7, witness at the unit quaternion `(3/5, 4/5, 0, 0)` and the vector
`(1, 2, 3)`. -/
theorem rotate_conjugate_rotate_roundtrip_witness :
    ((⟨3 / 5, 4 / 5, 0, 0⟩ : Quat).w ^ 2 + (⟨3 / 5, 4 / 5, 0, 0⟩ : Quat).x ^ 2
      + (⟨3 / 5, 4 / 5, 0, 0⟩ : Quat).y ^ 2 + (⟨3 / 5, 4 / 5, 0, 0⟩ : Quat).z ^ 2
      = 1) ∧
    quat_rotate (quat_conjugate ⟨3 / 5, 4 / 5, 0, 0⟩)
      (quat_rotate ⟨3 / 5, 4 / 5, 0, 0⟩ ⟨1, 2, 3⟩) = ⟨1, 2, 3⟩ :=
  ⟨by norm_num,
   rotate_conjugate_rotate_roundtrip ⟨3 / 5, 4 / 5, 0, 0⟩ ⟨1, 2, 3⟩ (by norm_num)⟩

/-- C8: `normalize_vec` is total — when the magnitude is below the
`1e-10` threshold it returns the zero vector, and otherwise it divides
each component by the magnitude, which is then provably nonzero (so the
division is never by a near-zero value and no error can arise). -/
theorem normalize_vec_total (v : Vec3) :
    (Real.sqrt (v.x ^ 2 + v.y ^ 2 + v.z ^ 2) < 1 / 10 ^ 10 ∧
      normalize_vec v = ⟨0, 0, 0⟩) ∨
    (1 / 10 ^ 10 ≤ Real.sqrt (v.x ^ 2 + v.y ^ 2 + v.z ^ 2) ∧
      Real.sqrt (v.x ^ 2 + v.y ^ 2 + v.z ^ 2) ≠ 0 ∧
      normalize_vec v =
        ⟨v.x / Real.sqrt (v.x ^ 2 + v.y ^ 2 + v.z ^ 2),
         v.y / Real.sqrt (v.x ^ 2 + v.y ^ 2 + v.z ^ 2),
         v.z / Real.sqrt (v.x ^ 2 + v.y ^ 2 + v.z ^ 2)⟩) := by
  by_cases h : Real.sqrt (v.x ^ 2 + v.y ^ 2 + v.z ^ 2) < 1 / 10 ^ 10
  · exact Or.inl ⟨h, by unfold normalize_vec; rw [if_pos h]⟩
  · have h1 : (1 : ℝ) / 10 ^ 10 ≤ Real.sqrt (v.x ^ 2 + v.y ^ 2 + v.z ^ 2) :=
      not_lt.mp h
    refine Or.inr ⟨h1, ?_, by unfold normalize_vec; rw [if_neg h]⟩
    have hpos : (0 : ℝ) < Real.sqrt (v.x ^ 2 + v.y ^ 2 + v.z ^ 2) :=
      lt_of_lt_of_le (by norm_num) h1
    exact hpos.ne'

/-- C9: when two scenes share a position, the zero-vector sentinel from
normalization propagates, the yaw computation reduces to
`atan2 0 0 = 0`, and `compute_hotspot_yaw` returns `0` (total, no
error). -/
theorem coincident_positions_yaw_zero (pano_a pano_b : Pano)
    (h : pano_a.position = pano_b.position) :
    compute_hotspot_yaw pano_a pano_b 0 = 0 := by
  unfold compute_hotspot_yaw
  rw [d_local_of_eq_pos pano_a pano_b h]
  simp only []
  rw [atan2_zero_zero, degrees_zero]
  rw [show (0 : ℝ) + 0 + 180 = 180 by norm_num,
      pymod_eq_self 180 360 (by norm_num) (by norm_num)]
  norm_num

/-- C9, witness at two distinct scenes placed at the same position. -/
theorem coincident_positions_yaw_zero_witness :
    panoA.position = panoCo.position ∧
    compute_hotspot_yaw panoA panoCo 0 = 0 :=
  ⟨rfl, coincident_positions_yaw_zero panoA panoCo rfl⟩

/-- C10: for every scene entry (the j-th, holding the j-th scene's id),
the stored north offset is `compute_north_offset` of that entry's own
scene rounded to two decimals, and the stored yaws are, edge by edge,
`compute_hotspot_yaw` from that same source scene to the edge's own
target (the k-th hotspot targets the k-th scene of the input with the
source removed) rounded to two decimals — the raw unrounded values never
appear in the output. -/
theorem stored_yaw_and_north_offset_rounded (panos : List Pano)
    (output_dir data_dir : String) (yaw_offset : ℝ) (debug : Bool)
    (hnd : (panos.map (fun p => make_scene_id p.name)).Nodup)
    (j : ℕ) (hj : j < (panos.map assign_scene_id).length) :
    ∃ e, ((generate_tour_config panos output_dir data_dir yaw_offset debug).1.scenes)[j]?
        = some e ∧
      e.1 = sid ((panos.map assign_scene_id).get ⟨j, hj⟩) ∧
      e.2.northOffset =
        round2 (compute_north_offset ((panos.map assign_scene_id).get ⟨j, hj⟩)) ∧
      e.2.hotSpots.map (fun hs => hs.yaw) =
        ((panos.map assign_scene_id).eraseIdx j).map (fun b =>
          round2 (compute_hotspot_yaw ((panos.map assign_scene_id).get ⟨j, hj⟩)
            b yaw_offset)) ∧
      e.2.hotSpots.map (fun hs => hs.sceneId) =
        ((panos.map assign_scene_id).eraseIdx j).map sid := by
  rw [scenes_eq panos output_dir data_dir yaw_offset debug hnd,
      entriesFrom_getElem? _ _ _ _ 0 j hj]
  refine ⟨_, rfl, rfl, rfl, ?_, ?_⟩
  all_goals
    have hhs : (mkSceneEntry (panos.map assign_scene_id) yaw_offset debug (0 + j)
        ((panos.map assign_scene_id).get ⟨j, hj⟩)).hotSpots =
        ((panos.map assign_scene_id).eraseIdx j).map
          (mkHotspot ((panos.map assign_scene_id).get ⟨j, hj⟩) yaw_offset) := by
      show buildHotspots _ yaw_offset (0 + j) 0 _ = _
      rw [buildHotspots_le _ _ _ 0 (0 + j) (Nat.zero_le _), Nat.zero_add,
        Nat.sub_zero]
    rw [hhs, List.map_map]
    rfl

/-- C10, witness at two concrete scenes and index 0. -/
theorem stored_yaw_and_north_offset_rounded_witness :
    ((([panoA, panoB] : List Pano).map (fun p => make_scene_id p.name)).Nodup ∧
      0 < (([panoA, panoB] : List Pano).map assign_scene_id).length) ∧
    ∃ e, ((generate_tour_config [panoA, panoB] "out" "data" 0 false).1.scenes)[0]?
        = some e ∧
      e.1 = sid ((([panoA, panoB] : List Pano).map assign_scene_id).get
        ⟨0, by simp⟩) ∧
      e.2.northOffset = round2 (compute_north_offset
        ((([panoA, panoB] : List Pano).map assign_scene_id).get ⟨0, by simp⟩)) ∧
      e.2.hotSpots.map (fun hs => hs.yaw) =
        ((([panoA, panoB] : List Pano).map assign_scene_id).eraseIdx 0).map
          (fun b => round2 (compute_hotspot_yaw
            ((([panoA, panoB] : List Pano).map assign_scene_id).get ⟨0, by simp⟩)
            b 0)) ∧
      e.2.hotSpots.map (fun hs => hs.sceneId) =
        ((([panoA, panoB] : List Pano).map assign_scene_id).eraseIdx 0).map sid :=
  ⟨⟨by decide, by simp⟩,
   stored_yaw_and_north_offset_rounded [panoA, panoB] "out" "data" 0 false
     (by decide) 0 (by simp)⟩
